import Mathlib

/-!
Shallow embedding of the INDI telescope mount controller:
the AltAz mount simulator driver (AltAzMountSimulator.cpp/.h) and the
10micron LX200 hardware driver (lx200_10micron.cpp), together with the
parts of the line protocol codec they use.

Real-valued quantities (coordinates, elapsed time, parsed numeric fields)
are modelled as rationals; machine integers that cannot overflow in the
modelled ranges are modelled as Int/Nat.
-/

namespace Indi

/-- The telescope lifecycle state, from the `TelescopeStatus` enumeration of
the INDI telescope base class (`SCOPE_IDLE`, `SCOPE_SLEWING`, `SCOPE_TRACKING`,
`SCOPE_PARKING`, `SCOPE_PARKED`), stored in the drivers' `TrackState` field. -/
inductive TrackState where
  | SCOPE_IDLE
  | SCOPE_SLEWING
  | SCOPE_TRACKING
  | SCOPE_PARKING
  | SCOPE_PARKED
deriving DecidableEq, Repr

namespace AltAzMountSimulator

/-- The driver state of `AltAzMountSimulator`: current and target equatorial
coordinates (RA in hours, Dec in degrees) and the motion state.
Initial values in the header: currentRA 0, currentDEC 90, targets 0. -/
structure SimState where
  currentRA : ℚ
  currentDEC : ℚ
  targetRA : ℚ
  targetDEC : ℚ
  trackState : TrackState
deriving DecidableEq, Repr

/-- `static const uint8_t SLEW_RATE = 3;` — slew rate in degrees/second. -/
def SLEW_RATE : ℚ := 3

/-- `AltAzMountSimulator::Goto(double ra, double dec)`: unconditionally sets
`targetRA`/`targetDEC`, sets `TrackState = SCOPE_SLEWING`, and returns true. -/
def Goto (st : SimState) (ra dec : ℚ) : Bool × SimState :=
  (true, { st with targetRA := ra, targetDEC := dec,
                   trackState := TrackState.SCOPE_SLEWING })

/-- `AltAzMountSimulator::MoveNS`: returns false (rejecting the command,
with an error log) when `TrackState == SCOPE_PARKED`, else true; it never
touches coordinates or state (`dir`/`command` are explicitly unused). -/
def MoveNS (st : SimState) : Bool × SimState :=
  if st.trackState = TrackState.SCOPE_PARKED then (false, st) else (true, st)

/-- `AltAzMountSimulator::MoveWE`: same body as `MoveNS`. -/
def MoveWE (st : SimState) : Bool × SimState :=
  if st.trackState = TrackState.SCOPE_PARKED then (false, st) else (true, st)

/-- `AltAzMountSimulator::Abort()`: the driver method returns true and
changes nothing. -/
def Abort (st : SimState) : Bool × SimState :=
  (true, st)

/-- `AltAzMountSimulator::TimerHit()` for one tick of elapsed time `dt`
seconds. The base-class call (`INDI::Telescope::TimerHit`, which runs the
simulator's `ReadScopeStatus`) only publishes properties and changes none of
the fields modelled here. In the `SCOPE_SLEWING` case each axis is advanced:
step `da_ra = da_dec = SLEW_RATE * dt`; an axis whose remaining distance is
within the step snaps to the target and counts as locked (`nlocked`), else it
moves by the signed step (RA in hours, hence `/ 15`); when `nlocked == 2` the
state becomes `SCOPE_TRACKING`. All other states leave the fields unchanged
(the remaining branches only toggle logging flags). -/
def TimerHit (st : SimState) (dt : ℚ) : SimState :=
  let da_ra : ℚ := SLEW_RATE * dt
  let da_dec : ℚ := SLEW_RATE * dt
  match st.trackState with
  | TrackState.SCOPE_SLEWING =>
    let dx := st.targetRA - st.currentRA
    let ra1 := if |dx| * 15 ≤ da_ra then st.targetRA
               else if dx > 0 then st.currentRA + da_ra / 15
               else st.currentRA - da_ra / 15
    let dy := st.targetDEC - st.currentDEC
    let dec1 := if |dy| ≤ da_dec then st.targetDEC
                else if dy > 0 then st.currentDEC + da_dec
                else st.currentDEC - da_dec
    let ts := if |dx| * 15 ≤ da_ra ∧ |dy| ≤ da_dec then TrackState.SCOPE_TRACKING
              else st.trackState
    { st with currentRA := ra1, currentDEC := dec1, trackState := ts }
  | _ => st

/-- Modelled from the spec: the framework dispatch that routes a client Goto
to the driver is in the INDI telescope base class (`inditelescope.cpp`), which
is not under src/. Per the spec's transition table — "Goto(ra,dec) | Slewing |
sets `target`; rejected (no-op, logged) if Parked" — the dispatch rejects the
command while Parked without invoking the driver's `Goto`. -/
def gotoCommand (st : SimState) (ra dec : ℚ) : Bool × SimState :=
  if st.trackState = TrackState.SCOPE_PARKED then (false, st)
  else Goto st ra dec

/-- Modelled from the spec: the framework dispatch for the Abort switch is in
the INDI telescope base class (`inditelescope.cpp`), not under src/. Per the
spec's transition table — "any non-Parked | Abort | Idle | immediate; cancels
any in-flight slew" — when the driver's `Abort` succeeds from a non-Parked
state the motion state is set to Idle. -/
def abortCommand (st : SimState) : SimState :=
  if st.trackState ≠ TrackState.SCOPE_PARKED ∧ (Abort st).1 = true then
    { (Abort st).2 with trackState := TrackState.SCOPE_IDLE }
  else (Abort st).2

/-- The longitude normalization at the head of
`AltAzMountSimulator::ReadScopeStatus`:
`if (lnobserver.lng > 180) lnobserver.lng -= 360;`. -/
def normalizeLng (lng : ℚ) : ℚ :=
  if lng > 180 then lng - 360 else lng

/-- The horizontal-coordinate computation of
`AltAzMountSimulator::ReadScopeStatus`, parameterized by the external libnova
spherical transform `hrz` (arguments: RA in degrees, Dec, observer longitude,
observer latitude; result: south-referenced azimuth and altitude) and the
external `range360` wrap `wrap` from indicom. The driver converts RA hours to
degrees (`* 15`), normalizes the longitude, applies the transform, and
re-references azimuth from north (`az + 180`, wrapped). -/
def simHorizontal (hrz : ℚ → ℚ → ℚ → ℚ → ℚ × ℚ) (wrap : ℚ → ℚ)
    (currentRA currentDEC lng lat : ℚ) : ℚ × ℚ :=
  let epochRA := currentRA * 15
  let lng1 := normalizeLng lng
  let p := hrz epochRA currentDEC lng1 lat
  (wrap (p.1 + 180), p.2)

end AltAzMountSimulator

/-! ### Protocol codec: the C stdio scanning used by the 10micron driver

`sscanf` with the fixed formats `"%g,%g,%c,%g,%g,%g,%d,%d#"` (status reply)
and `"%f#"` (refraction-model replies) is embedded over `List Char`.
A `%g`/`%f` conversion skips leading whitespace, then accepts an optional
sign, decimal digits with an optional fraction, and an optional exponent
(longest valid prefix, as strtod); `%d` skips whitespace, then an optional
sign and digits; `%c` reads exactly one character; an ordinary format
character must match the next input character exactly. -/

/-- Decimal value of a digit character. -/
def digitVal (c : Char) : ℕ := c.toNat - 48

/-- Value of a digit string, most significant first. -/
def digitsVal (l : List Char) : ℕ :=
  l.foldl (fun a c => 10 * a + digitVal c) 0

/-- Split a leading run of decimal digits from the input. -/
def takeDigits : List Char → List Char × List Char
  | [] => ([], [])
  | c :: cs =>
    if c.isDigit then
      let p := takeDigits cs
      (c :: p.1, p.2)
    else ([], c :: cs)

/-- Skip leading whitespace, as the `%g`/`%d` conversions do. -/
def skipWS : List Char → List Char
  | [] => []
  | c :: cs => if c.isWhitespace then skipWS cs else c :: cs

/-- Integer power of ten as a rational. -/
def qpow10 (e : ℤ) : ℚ :=
  if 0 ≤ e then (10 : ℚ) ^ e.toNat else 1 / (10 : ℚ) ^ (-e).toNat

/-- Optional exponent part of a `%g` conversion: `e`/`E`, optional sign,
digits; consumed only when at least one digit follows (longest valid
prefix), else left untouched. -/
def scanExp (s : List Char) : ℤ × List Char :=
  match s with
  | [] => (0, [])
  | c :: rest =>
    if c = 'e' ∨ c = 'E' then
      match rest with
      | '-' :: r2 =>
        let p := takeDigits r2
        if p.1 = [] then (0, s) else (-(digitsVal p.1 : ℤ), p.2)
      | '+' :: r2 =>
        let p := takeDigits r2
        if p.1 = [] then (0, s) else ((digitsVal p.1 : ℤ), p.2)
      | r2 =>
        let p := takeDigits r2
        if p.1 = [] then (0, s) else ((digitsVal p.1 : ℤ), p.2)
    else (0, s)

/-- One `%g`/`%f` conversion: returns the parsed value and the remaining
input, or `none` on a matching/input failure. -/
def scanFloat (s : List Char) : Option (ℚ × List Char) :=
  let s1 := skipWS s
  let sgn : Bool × List Char :=
    match s1 with
    | '-' :: r => (true, r)
    | '+' :: r => (false, r)
    | r => (false, r)
  let ip := takeDigits sgn.2
  let fr : List Char × List Char :=
    match ip.2 with
    | '.' :: r => takeDigits r
    | r => ([], r)
  if ip.1 = [] ∧ fr.1 = [] then none
  else
    let mant : ℚ := (digitsVal ip.1 : ℚ) + (digitsVal fr.1 : ℚ) / (10 : ℚ) ^ fr.1.length
    let ex := scanExp fr.2
    let v : ℚ := (if sgn.1 then -mant else mant) * qpow10 ex.1
    some (v, ex.2)

/-- One `%d` conversion: returns the parsed integer and the remaining input,
or `none` on a matching/input failure. -/
def scanInt (s : List Char) : Option (ℤ × List Char) :=
  let s1 := skipWS s
  let sgn : Bool × List Char :=
    match s1 with
    | '-' :: r => (true, r)
    | '+' :: r => (false, r)
    | r => (false, r)
  let p := takeDigits sgn.2
  if p.1 = [] then none
  else some (if sgn.1 then -(digitsVal p.1 : ℤ) else (digitsVal p.1 : ℤ), p.2)

/-- An ordinary format character: must match the next input character. -/
def scanLit (c : Char) (s : List Char) : Option (List Char) :=
  match s with
  | [] => none
  | x :: r => if x = c then some r else none

/-- `strchr(data, '#')` followed by `*(term + 1) = '\0'`: keep the input up
to and including the first `'#'`; `none` when no `'#'` is present. -/
def truncAfterHash : List Char → Option (List Char)
  | [] => none
  | c :: rest =>
    if c = '#' then some [c]
    else (truncAfterHash rest).map (fun l => c :: l)

namespace LX200_10MICRON

/-! The `LX200_10MICRON_GSTAT` status codes. The enumeration is declared in
`lx200_10micron.h`, which is repository code not under src/; the numeric
values below are those of the 10micron "Mount Command Protocol 2.14.11"
`Gstat` field that the header mirrors (the .cpp cites that protocol). -/

def GSTAT_TRACKING : ℤ := 0
def GSTAT_STOPPED : ℤ := 1
def GSTAT_PARKING : ℤ := 2
def GSTAT_UNPARKING : ℤ := 3
def GSTAT_SLEWING_TO_HOME : ℤ := 4
def GSTAT_PARKED : ℤ := 5
def GSTAT_SLEWING_OR_STOPPING : ℤ := 6
def GSTAT_NOT_TRACKING_AND_NOT_MOVING : ℤ := 7
def GSTAT_MOTORS_TOO_COLD : ℤ := 8
def GSTAT_TRACKING_OUTSIDE_LIMITS : ℤ := 9
def GSTAT_FOLLOWING_SATELLITE : ℤ := 10
def GSTAT_NEED_USEROK : ℤ := 11
def GSTAT_UNKNOWN_STATUS : ℤ := 98
def GSTAT_ERROR : ℤ := 99

/-- The fields scanned from a `#:Ginfo#` reply, with the initial values the
driver gives the C variables before `sscanf` (floats 0.0, `SideOfPier` 'x',
status ints -1): an unassigned field keeps its initial value. -/
structure GinfoFields where
  ra : ℚ := 0
  dec : ℚ := 0
  pier : Char := 'x'
  az : ℚ := 0
  alt : ℚ := 0
  jdate : ℚ := 0
  gstat : ℤ := -1
  slew : ℤ := -1
deriving DecidableEq, Repr

/-- `sscanf(data, "%g,%g,%c,%g,%g,%g,%d,%d#", ...)`: returns the number of
fields assigned (−1 for an input failure before the first conversion, as
`sscanf` returns EOF there) together with the field values. -/
def ginfoScan (s : List Char) : ℤ × GinfoFields :=
  let f0 : GinfoFields := {}
  match scanFloat s with
  | none => (if skipWS s = [] then -1 else 0, f0)
  | some (ra, s1) =>
    let f1 := { f0 with ra := ra }
    match scanLit ',' s1 with
    | none => (1, f1)
    | some s2 =>
      match scanFloat s2 with
      | none => (1, f1)
      | some (de, s3) =>
        let f2 := { f1 with dec := de }
        match scanLit ',' s3 with
        | none => (2, f2)
        | some s4 =>
          match s4 with
          | [] => (2, f2)
          | c :: s5 =>
            let f3 := { f2 with pier := c }
            match scanLit ',' s5 with
            | none => (3, f3)
            | some s6 =>
              match scanFloat s6 with
              | none => (3, f3)
              | some (az, s7) =>
                let f4 := { f3 with az := az }
                match scanLit ',' s7 with
                | none => (4, f4)
                | some s8 =>
                  match scanFloat s8 with
                  | none => (4, f4)
                  | some (al, s9) =>
                    let f5 := { f4 with alt := al }
                    match scanLit ',' s9 with
                    | none => (5, f5)
                    | some s10 =>
                      match scanFloat s10 with
                      | none => (5, f5)
                      | some (jd, s11) =>
                        let f6 := { f5 with jdate := jd }
                        match scanLit ',' s11 with
                        | none => (6, f6)
                        | some s12 =>
                          match scanInt s12 with
                          | none => (6, f6)
                          | some (g, s13) =>
                            let f7 := { f6 with gstat := g }
                            match scanLit ',' s13 with
                            | none => (7, f7)
                            | some s14 =>
                              match scanInt s14 with
                              | none => (7, f7)
                              | some (sl, _) => (8, { f7 with slew := sl })

/-- The hardware-path driver state touched by
`LX200_10MICRON::ReadScopeStatus`: motion state, last reported equatorial
coordinates (via `NewRaDec`), the remembered `OldGstat`, and the parked flag
(`SetParked`). -/
structure ScopeState where
  trackState : TrackState
  currentRA : ℚ
  currentDEC : ℚ
  oldGstat : ℤ
  isParked : Bool
deriving DecidableEq, Repr

/-- The `switch (Gstat)` of `LX200_10MICRON::ReadScopeStatus`: each known
code sets `TrackState` (and `GSTAT_PARKED` also sets the parked flag, which
`SetParked(true)` establishes whether or not it was already set); the
`default` case returns false immediately, modelled as `none`. -/
def gstatSwitch (g : ℤ) (st : ScopeState) : Option ScopeState :=
  if g = GSTAT_TRACKING then some { st with trackState := TrackState.SCOPE_TRACKING }
  else if g = GSTAT_STOPPED then some { st with trackState := TrackState.SCOPE_IDLE }
  else if g = GSTAT_PARKING then some { st with trackState := TrackState.SCOPE_PARKING }
  else if g = GSTAT_UNPARKING then some { st with trackState := TrackState.SCOPE_TRACKING }
  else if g = GSTAT_SLEWING_TO_HOME then some { st with trackState := TrackState.SCOPE_SLEWING }
  else if g = GSTAT_PARKED then
    some { st with trackState := TrackState.SCOPE_PARKED, isParked := true }
  else if g = GSTAT_SLEWING_OR_STOPPING then some { st with trackState := TrackState.SCOPE_SLEWING }
  else if g = GSTAT_NOT_TRACKING_AND_NOT_MOVING then some { st with trackState := TrackState.SCOPE_IDLE }
  else if g = GSTAT_MOTORS_TOO_COLD then some { st with trackState := TrackState.SCOPE_IDLE }
  else if g = GSTAT_TRACKING_OUTSIDE_LIMITS then some { st with trackState := TrackState.SCOPE_TRACKING }
  else if g = GSTAT_FOLLOWING_SATELLITE then some { st with trackState := TrackState.SCOPE_TRACKING }
  else if g = GSTAT_NEED_USEROK then some { st with trackState := TrackState.SCOPE_IDLE }
  else if g = GSTAT_UNKNOWN_STATUS then some { st with trackState := TrackState.SCOPE_IDLE }
  else if g = GSTAT_ERROR then some { st with trackState := TrackState.SCOPE_IDLE }
  else none

/-- The Gstat codes handled by the `switch` (its known code space). -/
def knownGstatCodes : List ℤ := [0, 1, 2, 3, 4, 5, 6, 7, 8, 9, 10, 11, 98, 99]

/-- `LX200_10MICRON::ReadScopeStatus()` on the hardware path (connected, not
simulated). `reply` is the transport outcome of writing `#:Ginfo#` and
reading until `'#'`: `none` models a tty write/read error or timeout (the
early `return false` paths). Then, as in the source: find the `'#'`
terminator (else return false), `sscanf` the payload, return false when the
scan reports EOF (`nbytes_read < 0`), run the status switch (whose `default`
returns false), and only then commit `OldGstat` and `NewRaDec(RA, DEC)` and
return true. -/
def ReadScopeStatus (st : ScopeState) (reply : Option (List Char)) :
    Bool × ScopeState :=
  match reply with
  | none => (false, st)
  | some data =>
    match truncAfterHash data with
    | none => (false, st)
    | some d =>
      let p := ginfoScan d
      if p.1 < 0 then (false, st)
      else
        match gstatSwitch p.2.gstat st with
        | none => (false, st)
        | some st1 =>
          (true, { st1 with oldGstat := p.2.gstat,
                            currentRA := p.2.ra, currentDEC := p.2.dec })

/-- `snprintf(data, 16, "#:SRTMP%0+6.1f#", temperature)` restricted to
one-decimal values with at most three integer digits (the supported range
±999.9, i.e. `k` tenths of a degree with `|k| ≤ 9999`): an explicit sign,
the integer part zero-padded to three digits (total width six), a point and
one fraction digit. -/
def formatTemp (k : ℤ) : List Char :=
  let sign := if k < 0 then '-' else '+'
  let m := k.natAbs
  let p := m / 10
  [sign, Nat.digitChar (p / 100), Nat.digitChar (p / 10 % 10),
   Nat.digitChar (p % 10), '.', Nat.digitChar (m % 10)]

/-- `LX200_10MICRON::SetRefractionModelTemperature`: the full command bytes
`#:SRTMP%0+6.1f#` for a temperature of `k` tenths of a degree. -/
def SetRefractionModelTemperature (k : ℤ) : List Char :=
  ('#' :: ':' :: 'S' :: 'R' :: 'T' :: 'M' :: 'P' :: formatTemp k) ++ ['#']

/-- The `#:GRTMP#` reply parse of `getBasicData`:
`sscanf(RefractionModelTemperature, "%f#", &rmtemp)` — the `%f` conversion
on the reply text (`none` when nothing numeric is assigned). -/
def grtmpParse (s : List Char) : Option ℚ :=
  (scanFloat s).map (fun p => p.1)

end LX200_10MICRON

/-! ### Claims about the AltAz mount simulator -/

open AltAzMountSimulator

/-- C1: in every state whose motion state is Parked, a client Goto(ra, dec)
is rejected (returns the rejected result), and the target coordinates and the
motion state are left unchanged; in particular the state does not become
Slewing. -/
theorem goto_rejected_while_parked (st : SimState) (ra dec : ℚ)
    (h : st.trackState = TrackState.SCOPE_PARKED) :
    gotoCommand st ra dec = (false, st) ∧
    (gotoCommand st ra dec).2.trackState ≠ TrackState.SCOPE_SLEWING := by
  constructor
  · simp [gotoCommand, h]
  · simp [gotoCommand, h]

theorem goto_rejected_while_parked_witness :
    gotoCommand ⟨0, 90, 0, 0, TrackState.SCOPE_PARKED⟩ 5 45 =
      (false, ⟨0, 90, 0, 0, TrackState.SCOPE_PARKED⟩) ∧
    (gotoCommand ⟨0, 90, 0, 0, TrackState.SCOPE_PARKED⟩ 5 45).2.trackState ≠
      TrackState.SCOPE_SLEWING :=
  goto_rejected_while_parked ⟨0, 90, 0, 0, TrackState.SCOPE_PARKED⟩ 5 45 rfl

/-- C3: on a slewing tick of elapsed time `dt`, each axis advances
independently with per-tick step `SLEW_RATE * dt` degrees (the RA step
applied as `SLEW_RATE * dt / 15` hours): an axis whose remaining distance is
within the step is set exactly to the target, otherwise it moves by exactly
the signed per-tick step toward the target. -/
theorem timerHit_slew_axis_step (st : SimState) (dt : ℚ)
    (hs : st.trackState = TrackState.SCOPE_SLEWING) (hdt : 0 ≤ dt) :
    ((|st.targetRA - st.currentRA| * 15 ≤ SLEW_RATE * dt →
        (TimerHit st dt).currentRA = st.targetRA) ∧
     (¬ |st.targetRA - st.currentRA| * 15 ≤ SLEW_RATE * dt →
        (TimerHit st dt).currentRA =
          st.currentRA + (if st.targetRA - st.currentRA > 0
                          then SLEW_RATE * dt / 15
                          else -(SLEW_RATE * dt / 15)))) ∧
    ((|st.targetDEC - st.currentDEC| ≤ SLEW_RATE * dt →
        (TimerHit st dt).currentDEC = st.targetDEC) ∧
     (¬ |st.targetDEC - st.currentDEC| ≤ SLEW_RATE * dt →
        (TimerHit st dt).currentDEC =
          st.currentDEC + (if st.targetDEC - st.currentDEC > 0
                           then SLEW_RATE * dt
                           else -(SLEW_RATE * dt)))) := by
  obtain ⟨cra, cdec, tra, tdec, ts⟩ := st
  simp only at hs
  subst hs
  refine ⟨⟨?_, ?_⟩, ?_, ?_⟩ <;> intro h <;>
    simp only [TimerHit] <;> split_ifs <;> simp_all <;> ring

theorem timerHit_slew_axis_step_witness :
    (TimerHit ⟨0, 0, 10, 50, TrackState.SCOPE_SLEWING⟩ 1).currentRA = 1 / 5 ∧
    (TimerHit ⟨0, 0, 10, 50, TrackState.SCOPE_SLEWING⟩ 1).currentDEC = 3 := by
  have h := timerHit_slew_axis_step ⟨0, 0, 10, 50, TrackState.SCOPE_SLEWING⟩ 1
    rfl (by norm_num)
  constructor
  · have h2 := h.1.2 (by norm_num [SLEW_RATE])
    rw [h2]; norm_num [SLEW_RATE]
  · have h3 := h.2.2 (by norm_num [SLEW_RATE])
    rw [h3]; norm_num [SLEW_RATE]

/-- C4: a slewing tick in which both axes are within their per-tick step
moves the motion state from Slewing to Tracking in that same tick; in
particular, after a Goto whose target equals the current position, the very
next tick (any elapsed time `dt ≥ 0`) reaches Tracking. -/
theorem timerHit_lock_to_tracking (st : SimState) (dt : ℚ) (hdt : 0 ≤ dt) :
    (st.trackState = TrackState.SCOPE_SLEWING →
      |st.targetRA - st.currentRA| * 15 ≤ SLEW_RATE * dt →
      |st.targetDEC - st.currentDEC| ≤ SLEW_RATE * dt →
      (TimerHit st dt).trackState = TrackState.SCOPE_TRACKING) ∧
    (TimerHit (Goto st st.currentRA st.currentDEC).2 dt).trackState =
      TrackState.SCOPE_TRACKING := by
  have hda : (0 : ℚ) ≤ SLEW_RATE * dt := by
    have : (0 : ℚ) ≤ SLEW_RATE := by norm_num [SLEW_RATE]
    exact mul_nonneg this hdt
  obtain ⟨cra, cdec, tra, tdec, ts⟩ := st
  constructor
  · intro hs h1 h2
    simp only at hs
    subst hs
    simp only [TimerHit] at *
    split_ifs <;> simp_all
  · simp only [Goto, TimerHit]
    split_ifs with hc <;> simp_all

theorem timerHit_lock_to_tracking_witness :
    (TimerHit ⟨3, 20, 3, 20, TrackState.SCOPE_SLEWING⟩ 1).trackState =
      TrackState.SCOPE_TRACKING ∧
    (TimerHit (Goto ⟨7, -5, 0, 0, TrackState.SCOPE_IDLE⟩ 7 (-5)).2 0).trackState =
      TrackState.SCOPE_TRACKING := by
  refine ⟨?_, ?_⟩
  · exact (timerHit_lock_to_tracking ⟨3, 20, 3, 20, TrackState.SCOPE_SLEWING⟩ 1
      (by norm_num)).1 rfl (by norm_num [SLEW_RATE]) (by norm_num [SLEW_RATE])
  · exact (timerHit_lock_to_tracking ⟨7, -5, 0, 0, TrackState.SCOPE_IDLE⟩ 0
      (le_refl 0)).2

/-- C5: from every non-Parked motion state, the Abort command immediately
sets the motion state to Idle (so a Slewing state does not persist past the
Abort call), leaving the coordinates as they were. -/
theorem abort_sets_idle (st : SimState)
    (h : st.trackState ≠ TrackState.SCOPE_PARKED) :
    (abortCommand st).trackState = TrackState.SCOPE_IDLE ∧
    (abortCommand st).trackState ≠ TrackState.SCOPE_SLEWING ∧
    (abortCommand st).currentRA = st.currentRA ∧
    (abortCommand st).currentDEC = st.currentDEC := by
  simp [abortCommand, Abort, h]

theorem abort_sets_idle_witness :
    (abortCommand ⟨1, 2, 3, 4, TrackState.SCOPE_SLEWING⟩).trackState =
      TrackState.SCOPE_IDLE ∧
    (abortCommand ⟨1, 2, 3, 4, TrackState.SCOPE_SLEWING⟩).trackState ≠
      TrackState.SCOPE_SLEWING ∧
    (abortCommand ⟨1, 2, 3, 4, TrackState.SCOPE_SLEWING⟩).currentRA = 1 ∧
    (abortCommand ⟨1, 2, 3, 4, TrackState.SCOPE_SLEWING⟩).currentDEC = 2 :=
  abort_sets_idle ⟨1, 2, 3, 4, TrackState.SCOPE_SLEWING⟩ (by decide)

/-- C7: a MoveNS or MoveWE jog command is rejected with the state unchanged
when the motion state is Parked, and otherwise succeeds as a no-op (no
coordinate or state change). -/
theorem jog_park_guard (st : SimState) :
    (st.trackState = TrackState.SCOPE_PARKED →
       MoveNS st = (false, st) ∧ MoveWE st = (false, st)) ∧
    (st.trackState ≠ TrackState.SCOPE_PARKED →
       MoveNS st = (true, st) ∧ MoveWE st = (true, st)) := by
  constructor <;> intro h <;> simp [MoveNS, MoveWE, h]

theorem jog_park_guard_witness :
    MoveNS ⟨0, 90, 0, 0, TrackState.SCOPE_PARKED⟩ =
      (false, ⟨0, 90, 0, 0, TrackState.SCOPE_PARKED⟩) ∧
    MoveWE ⟨0, 90, 0, 0, TrackState.SCOPE_TRACKING⟩ =
      (true, ⟨0, 90, 0, 0, TrackState.SCOPE_TRACKING⟩) :=
  ⟨((jog_park_guard ⟨0, 90, 0, 0, TrackState.SCOPE_PARKED⟩).1 rfl).1,
   ((jog_park_guard ⟨0, 90, 0, 0, TrackState.SCOPE_TRACKING⟩).2 (by decide)).2⟩

/-- C8: the horizontal computation invoked with observer longitude 200
degrees produces, for every transform, wrap, position and latitude, the
identical result as with longitude -160 degrees; a longitude at or below 180
passes through the normalization unchanged, and one above 180 is reduced by
360 before the spherical transform. -/
theorem longitude_normalization (hrz : ℚ → ℚ → ℚ → ℚ → ℚ × ℚ)
    (wrap : ℚ → ℚ) (ra dec lat lng : ℚ) :
    simHorizontal hrz wrap ra dec 200 lat =
      simHorizontal hrz wrap ra dec (-160) lat ∧
    (lng ≤ 180 → normalizeLng lng = lng) ∧
    (180 < lng → normalizeLng lng = lng - 360) := by
  refine ⟨?_, ?_, ?_⟩
  · norm_num [simHorizontal, normalizeLng]
  · intro h
    simp only [normalizeLng, if_neg (not_lt.mpr h)]
  · intro h
    simp only [normalizeLng, if_pos h]

theorem longitude_normalization_witness :
    simHorizontal (fun a b c d => (a + b + c, d)) (fun x => x) 1 2 200 3 =
      simHorizontal (fun a b c d => (a + b + c, d)) (fun x => x) 1 2 (-160) 3 ∧
    normalizeLng 100 = 100 ∧
    normalizeLng 200 = 200 - 360 := by
  have h1 := longitude_normalization (fun a b c d => (a + b + c, d))
    (fun x => x) 1 2 3 100
  have h2 := longitude_normalization (fun a b c d => (a + b + c, d))
    (fun x => x) 1 2 3 200
  exact ⟨h1.1, h1.2.1 (by norm_num), h2.2.2 (by norm_num)⟩

/-- C10: once an axis's current value equals its target during a slew, a
further slewing tick with the target unchanged keeps that axis exactly at the
target — the snap branch is retaken because a zero remaining distance is
always within the per-tick step, even for a zero elapsed time — so a locked
axis never drifts off the target while the other axis is still converging. -/
theorem locked_axis_stays (st : SimState) (dt : ℚ) (hdt : 0 ≤ dt)
    (hs : st.trackState = TrackState.SCOPE_SLEWING) :
    (st.currentRA = st.targetRA →
       (TimerHit st dt).currentRA = st.targetRA ∧
       (TimerHit st dt).targetRA = st.targetRA) ∧
    (st.currentDEC = st.targetDEC →
       (TimerHit st dt).currentDEC = st.targetDEC ∧
       (TimerHit st dt).targetDEC = st.targetDEC) := by
  have hda : (0 : ℚ) ≤ SLEW_RATE * dt := by
    have : (0 : ℚ) ≤ SLEW_RATE := by norm_num [SLEW_RATE]
    exact mul_nonneg this hdt
  obtain ⟨cra, cdec, tra, tdec, ts⟩ := st
  simp only at hs
  subst hs
  constructor <;> intro h <;> simp only at h <;> subst h <;>
    simp only [TimerHit] <;> split_ifs <;> simp_all

theorem locked_axis_stays_witness :
    (TimerHit ⟨5, 0, 5, 80, TrackState.SCOPE_SLEWING⟩ 0).currentRA = 5 ∧
    (TimerHit ⟨5, 0, 5, 80, TrackState.SCOPE_SLEWING⟩ 0).targetRA = 5 :=
  (locked_axis_stays ⟨5, 0, 5, 80, TrackState.SCOPE_SLEWING⟩ 0
    (le_refl 0) rfl).1 rfl

/-! ### Claims about the 10micron hardware driver -/

open LX200_10MICRON

/-- C2: the status poll applies a malformed reply. The reply below carries
only seven of the eight expected fields (the trailing slew-status field is
missing), yet `ReadScopeStatus` reports success, switches the motion state to
Tracking from the partially scanned status code, and overwrites the current
coordinates with the scanned RA/Dec — because `sscanf` returns the number of
assigned fields (7 here, never negative for a nonempty payload), so the
`nbytes_read < 0` guard cannot fire. -/
theorem readScopeStatus_applies_wrong_field_count :
    ReadScopeStatus ⟨TrackState.SCOPE_IDLE, 0, 0, -1, false⟩
        (some ("12.5,45.5,E,10.0,20.0,30.0,0#".toList)) =
      (true, ⟨TrackState.SCOPE_TRACKING, 25/2, 91/2, 0, false⟩) := by
  simp [ReadScopeStatus, ginfoScan, scanFloat, scanInt, scanLit, scanExp,
        truncAfterHash, skipWS, takeDigits, digitsVal, digitVal, qpow10,
        gstatSwitch, GSTAT_TRACKING, String.toList]
  norm_num

lemma gstatSwitch_isSome_of_known (g : ℤ) (st : ScopeState)
    (h : g ∈ knownGstatCodes) : (gstatSwitch g st).isSome = true := by
  simp only [knownGstatCodes, List.mem_cons, List.not_mem_nil, or_false] at h
  rcases h with h | h | h | h | h | h | h | h | h | h | h | h | h | h <;>
    subst h <;>
    simp [gstatSwitch, GSTAT_TRACKING, GSTAT_STOPPED, GSTAT_PARKING,
      GSTAT_UNPARKING, GSTAT_SLEWING_TO_HOME, GSTAT_PARKED,
      GSTAT_SLEWING_OR_STOPPING, GSTAT_NOT_TRACKING_AND_NOT_MOVING,
      GSTAT_MOTORS_TOO_COLD, GSTAT_TRACKING_OUTSIDE_LIMITS,
      GSTAT_FOLLOWING_SATELLITE, GSTAT_NEED_USEROK, GSTAT_UNKNOWN_STATUS,
      GSTAT_ERROR]

lemma gstatSwitch_eq_none (g : ℤ) (st : ScopeState)
    (h : g ∉ knownGstatCodes) : gstatSwitch g st = none := by
  simp only [knownGstatCodes, List.mem_cons, List.not_mem_nil, or_false,
    not_or] at h
  obtain ⟨h0, h1, h2, h3, h4, h5, h6, h7, h8, h9, h10, h11, h12, h13⟩ := h
  simp [gstatSwitch, GSTAT_TRACKING, GSTAT_STOPPED, GSTAT_PARKING,
    GSTAT_UNPARKING, GSTAT_SLEWING_TO_HOME, GSTAT_PARKED,
    GSTAT_SLEWING_OR_STOPPING, GSTAT_NOT_TRACKING_AND_NOT_MOVING,
    GSTAT_MOTORS_TOO_COLD, GSTAT_TRACKING_OUTSIDE_LIMITS,
    GSTAT_FOLLOWING_SATELLITE, GSTAT_NEED_USEROK, GSTAT_UNKNOWN_STATUS,
    GSTAT_ERROR, h0, h1, h2, h3, h4, h5, h6, h7, h8, h9, h10, h11, h12, h13]

/-- C6: the status-code switch is total over the known code space (every
known code yields a state), and a poll whose reply parses to a status code
outside that space returns the error result with the driver state — motion
state and current coordinates — exactly as before the poll. -/
theorem unknown_gstat_left_intact (st : ScopeState) (g : ℤ)
    (data d : List Char) (hg : g ∈ knownGstatCodes)
    (ht : truncAfterHash data = some d)
    (hu : (ginfoScan d).2.gstat ∉ knownGstatCodes) :
    (gstatSwitch g st).isSome = true ∧
    ReadScopeStatus st (some data) = (false, st) := by
  constructor
  · exact gstatSwitch_isSome_of_known g st hg
  · have hnone : gstatSwitch ((ginfoScan d).2.gstat) st = none :=
      gstatSwitch_eq_none _ st hu
    simp only [ReadScopeStatus, ht]
    split_ifs with h
    · rfl
    · rw [hnone]

set_option maxHeartbeats 2000000 in
theorem unknown_gstat_left_intact_witness :
    (gstatSwitch 5 ⟨TrackState.SCOPE_IDLE, 0, 0, -1, false⟩).isSome = true ∧
    ReadScopeStatus ⟨TrackState.SCOPE_IDLE, 0, 0, -1, false⟩
        (some ("1.0,2.0,E,3.0,4.0,5.0,55,6#".toList)) =
      (false, ⟨TrackState.SCOPE_IDLE, 0, 0, -1, false⟩) :=
  unknown_gstat_left_intact ⟨TrackState.SCOPE_IDLE, 0, 0, -1, false⟩ 5
    ("1.0,2.0,E,3.0,4.0,5.0,55,6#".toList)
    ("1.0,2.0,E,3.0,4.0,5.0,55,6#".toList)
    (by decide) (by decide) (by decide)

lemma digitChar_isDigit (d : ℕ) (h : d < 10) :
    (Nat.digitChar d).isDigit = true := by
  interval_cases d <;> decide

lemma digitVal_digitChar (d : ℕ) (h : d < 10) :
    digitVal (Nat.digitChar d) = d := by
  interval_cases d <;> decide

lemma takeDigits_digit (c : Char) (l : List Char) (h : c.isDigit = true) :
    takeDigits (c :: l) = (c :: (takeDigits l).1, (takeDigits l).2) := by
  simp [takeDigits, h]

lemma takeDigits_nondigit (c : Char) (l : List Char) (h : c.isDigit = false) :
    takeDigits (c :: l) = ([], c :: l) := by
  simp [takeDigits, h]

lemma takeDigits_three (a b c e : ℕ) (ha : a < 10) (hb : b < 10)
    (hc : c < 10) :
    takeDigits [Nat.digitChar a, Nat.digitChar b, Nat.digitChar c, '.',
        Nat.digitChar e, '#'] =
      ([Nat.digitChar a, Nat.digitChar b, Nat.digitChar c],
       ['.', Nat.digitChar e, '#']) := by
  rw [takeDigits_digit _ _ (digitChar_isDigit a ha),
      takeDigits_digit _ _ (digitChar_isDigit b hb),
      takeDigits_digit _ _ (digitChar_isDigit c hc),
      takeDigits_nondigit _ _ (show ('.' : Char).isDigit = false by decide)]

lemma takeDigits_one (e : ℕ) (he : e < 10) :
    takeDigits [Nat.digitChar e, '#'] = ([Nat.digitChar e], ['#']) := by
  rw [takeDigits_digit _ _ (digitChar_isDigit e he),
      takeDigits_nondigit _ _ (show ('#' : Char).isDigit = false by decide)]

lemma scanFloat_digits_neg (a b c e : ℕ) (ha : a < 10) (hb : b < 10)
    (hc : c < 10) (he : e < 10) :
    scanFloat ('-' :: Nat.digitChar a :: Nat.digitChar b :: Nat.digitChar c ::
        '.' :: Nat.digitChar e :: ['#']) =
      some (-(((100 * a + 10 * b + c : ℕ) : ℚ) + (e : ℚ) / 10), ['#']) := by
  simp [scanFloat, skipWS, scanExp, qpow10,
    takeDigits_three a b c e ha hb hc, takeDigits_one e he,
    digitsVal, digitVal_digitChar a ha, digitVal_digitChar b hb,
    digitVal_digitChar c hc, digitVal_digitChar e he]
  ring

lemma scanFloat_digits_pos (a b c e : ℕ) (ha : a < 10) (hb : b < 10)
    (hc : c < 10) (he : e < 10) :
    scanFloat ('+' :: Nat.digitChar a :: Nat.digitChar b :: Nat.digitChar c ::
        '.' :: Nat.digitChar e :: ['#']) =
      some ((((100 * a + 10 * b + c : ℕ) : ℚ) + (e : ℚ) / 10), ['#']) := by
  simp [scanFloat, skipWS, scanExp, qpow10,
    takeDigits_three a b c e ha hb hc, takeDigits_one e he,
    digitsVal, digitVal_digitChar a ha, digitVal_digitChar b hb,
    digitVal_digitChar c hc, digitVal_digitChar e he]
  ring

/-- C9: for every temperature of `k` tenths of a degree with `k` in
[-9999, 9999] (i.e. -999.9..999.9 at 0.1 resolution), the set-temperature
encoding produces a six-character fixed-width signed one-decimal field, and
the get-reply parse (`%f#`) applied to that field reproduces the temperature
`k / 10` exactly. -/
theorem srtmp_roundtrip (k : ℤ) (h1 : -9999 ≤ k) (h2 : k ≤ 9999) :
    (formatTemp k).length = 6 ∧
    grtmpParse (formatTemp k ++ ['#']) = some ((k : ℚ) / 10) := by
  constructor
  · simp [formatTemp]
  · by_cases hk : k < 0
    · obtain ⟨m, rfl⟩ : ∃ m : ℕ, k = -(m : ℤ) := ⟨k.natAbs, by omega⟩
      have hnat : (-(m : ℤ)).natAbs = m := by
        simp [Int.natAbs_neg]
      have ha : m / 10 / 100 < 10 := by omega
      have hb : m / 10 / 10 % 10 < 10 := Nat.mod_lt _ (by norm_num)
      have hc : m / 10 % 10 < 10 := Nat.mod_lt _ (by norm_num)
      have he : m % 10 < 10 := Nat.mod_lt _ (by norm_num)
      have hrecomp : 100 * (m / 10 / 100) + 10 * (m / 10 / 10 % 10)
          + m / 10 % 10 = m / 10 := by omega
      simp only [grtmpParse, formatTemp, hnat, if_pos hk, List.cons_append,
        List.nil_append, scanFloat_digits_neg _ _ _ _ ha hb hc he,
        Option.map_some', Option.some.injEq]
      rw [hrecomp]
      have h10 : (m : ℚ) = 10 * ((m / 10 : ℕ) : ℚ) + ((m % 10 : ℕ) : ℚ) := by
        exact_mod_cast (congrArg (fun n : ℕ => (n : ℚ)) (Nat.div_add_mod m 10)).symm
      push_cast
      rw [h10]
      ring
    · obtain ⟨m, rfl⟩ : ∃ m : ℕ, k = (m : ℤ) := ⟨k.natAbs, by omega⟩
      have hnat : ((m : ℤ)).natAbs = m := Int.natAbs_ofNat m
      have ha : m / 10 / 100 < 10 := by omega
      have hb : m / 10 / 10 % 10 < 10 := Nat.mod_lt _ (by norm_num)
      have hc : m / 10 % 10 < 10 := Nat.mod_lt _ (by norm_num)
      have he : m % 10 < 10 := Nat.mod_lt _ (by norm_num)
      have hrecomp : 100 * (m / 10 / 100) + 10 * (m / 10 / 10 % 10)
          + m / 10 % 10 = m / 10 := by omega
      simp only [grtmpParse, formatTemp, hnat, if_neg hk, List.cons_append,
        List.nil_append, scanFloat_digits_pos _ _ _ _ ha hb hc he,
        Option.map_some', Option.some.injEq]
      rw [hrecomp]
      have h10 : (m : ℚ) = 10 * ((m / 10 : ℕ) : ℚ) + ((m % 10 : ℕ) : ℚ) := by
        exact_mod_cast (congrArg (fun n : ℕ => (n : ℚ)) (Nat.div_add_mod m 10)).symm
      push_cast
      rw [h10]
      ring

theorem srtmp_roundtrip_witness :
    (formatTemp (-1234)).length = 6 ∧
    grtmpParse (formatTemp (-1234) ++ ['#']) = some ((-1234 : ℚ) / 10) := by
  have h := srtmp_roundtrip (-1234) (by norm_num) (by norm_num)
  simpa using h

end Indi
